import Mathlib

/- Verification of the TaskBum tool-selection-and-execution core.

The definitions below are a shallow embedding of the TypeScript source.
Network and clock effects are made explicit as environment records, JS
truthiness tests on optional strings and numbers are made explicit, and
JSON serialization is represented by injective constructor application
(a serialized value is represented by the value it serializes).
Sections follow the source files:
  * lib/tools/solanaTokenMarketData.ts            (market-data adapter)
  * lib/streaming/tool-execution.ts, later revision (orchestrator)
  * lib/streaming/parse-tool-call.ts              (modelled from the spec;
    the file is absent from the sources)
  * lib/tools/retrieve.ts                         (retrieval backends)
  * lib/tools/search/providers/tavily.ts          (search provider request)
-/

/-- JS truthiness of an optional string: `undefined` and `""` are falsy. -/
def strTruthy : Option String → Bool
  | none => false
  | some s => !s.isEmpty

/-- JS truthiness of an optional number: `undefined` and `0` are falsy.
JS numbers that the code only stores and tests are carried as `Int`. -/
def numTruthy : Option Int → Bool
  | none => false
  | some v => v != 0

/-! ## lib/tools/solanaTokenMarketData.ts -/

/-- Parameters of the market-data tool (`SolanaTokenMarketDataParams`):
both fields are optional in the zod schema. -/
structure SolanaTokenMarketDataParams where
  tokenSymbol : Option String
  tokenMintAddress : Option String
deriving DecidableEq

/-- Shape of `fetchBirdeyeData`'s result (interface `BirdeyeData`). -/
structure BirdeyeData where
  price : Option Int := none
  volume24h : Option Int := none
  liquidity : Option Int := none
  mc : Option Int := none
  source : Option String := none
  url : Option String := none
  error : Option String := none
deriving DecidableEq

/-- Shape of `fetchSolscanData`'s result (interface `SolscanData`). -/
structure SolscanData where
  price : Option Int := none
  marketCap : Option Int := none
  circulatingSupply : Option Int := none
  totalSupply : Option Int := none
  holders : Option Int := none
  source : Option String := none
  url : Option String := none
  error : Option String := none
deriving DecidableEq

/-- Environment of one `fetchBirdeyeData` call: whether `BIRDEYE_API_KEY`
is configured, and the outcome of the guarded fetch block — either the
thrown error's message, or `priceData.data?.value`. -/
structure BirdeyeEnv where
  apiKeyConfigured : Bool
  net : Except String (Option Int)

/-- The fields the Solscan fetch block reads from a successful response. -/
structure SolscanNetData where
  marketCapFD : Option Int
  supply : Option Int
  holder : Option Int

/-- Environment of one `fetchSolscanData` call: the outcome of the guarded
fetch block — either the thrown error's message, or the response fields. -/
structure SolscanEnv where
  net : Except String SolscanNetData

/-- `fetchBirdeyeData` of lib/tools/solanaTokenMarketData.ts. -/
def fetchBirdeyeData (params : SolanaTokenMarketDataParams) (env : BirdeyeEnv) :
    BirdeyeData :=
  if env.apiKeyConfigured = false then
    { error := some "Birdeye API key not configured.", source := some "Birdeye" }
  else if strTruthy params.tokenMintAddress then
    match env.net with
    | Except.ok v =>
        { price := v, source := some "Birdeye API",
          url := some ("https://birdeye.so/token/" ++ params.tokenMintAddress.getD ""
                        ++ "?chain=solana") }
    | Except.error e =>
        { error := some ("Birdeye API fetch error: " ++ e), source := some "Birdeye" }
  else
    { error := some "Birdeye: Mint address preferred for precise data.",
      source := some "Birdeye" }

/-- `fetchSolscanData` of lib/tools/solanaTokenMarketData.ts. -/
def fetchSolscanData (params : SolanaTokenMarketDataParams) (env : SolscanEnv) :
    SolscanData :=
  if strTruthy params.tokenMintAddress then
    match env.net with
    | Except.ok d =>
        { marketCap := d.marketCapFD, circulatingSupply := d.supply,
          totalSupply := d.supply, holders := d.holder,
          source := some "Solscan API",
          url := some ("https://solscan.io/token/" ++ params.tokenMintAddress.getD "") }
    | Except.error e =>
        { error := some ("Solscan API fetch error: " ++ e), source := some "Solscan" }
  else
    { error := some "Solscan: Mint address required for precise data.",
      source := some "Solscan" }

/-- The aggregate object `CombinedMarketData` assembled by the tool. -/
structure CombinedMarketData where
  tokenSymbol : Option String
  tokenMintAddress : Option String
  birdeye : Option BirdeyeData := none
  solscan : Option SolscanData := none
  lastUpdated : Option String := none
  errors : List String := []
deriving DecidableEq

/-- Result of the market-data tool's `execute`: either the single wholesale
error object `\x7b error \x7d`, or the aggregate `CombinedMarketData`. -/
inductive MarketToolResult where
  | errObj (msg : String)
  | data (d : CombinedMarketData)
deriving DecidableEq

/-- The per-source error strings collected by `execute`, in push order:
the Birdeye error (if any) first, then the Solscan error (if any). -/
def collectErrors (b : BirdeyeData) (s : SolscanData) : List String :=
  b.error.toList ++ s.error.toList

namespace getSolanaTokenMarketDataTool

/-- `getSolanaTokenMarketDataTool.execute` of lib/tools/solanaTokenMarketData.ts.
`now` is `new Date().toISOString()`. -/
def execute (params : SolanaTokenMarketDataParams) (benv : BirdeyeEnv)
    (senv : SolscanEnv) (now : String) : MarketToolResult :=
  if !strTruthy params.tokenSymbol && !strTruthy params.tokenMintAddress then
    MarketToolResult.errObj
      "Tool execution error: Token symbol or mint address is required."
  else if numTruthy (fetchBirdeyeData params benv).price = false ∧
      numTruthy (fetchSolscanData params senv).circulatingSupply = false ∧
      (collectErrors (fetchBirdeyeData params benv)
        (fetchSolscanData params senv)).length > 1 then
    MarketToolResult.errObj
      ("Failed to fetch significant market data. Errors: "
        ++ String.intercalate "; "
            (collectErrors (fetchBirdeyeData params benv)
              (fetchSolscanData params senv)))
  else
    MarketToolResult.data
      { tokenSymbol := params.tokenSymbol,
        tokenMintAddress := params.tokenMintAddress,
        birdeye := some (fetchBirdeyeData params benv),
        solscan := some (fetchSolscanData params senv),
        lastUpdated := some now,
        errors := collectErrors (fetchBirdeyeData params benv)
                    (fetchSolscanData params senv) }

end getSolanaTokenMarketDataTool

/-! Helper lemmas about the fetchers' possible results. -/

lemma fetchBirdeyeData_shape (params : SolanaTokenMarketDataParams)
    (env : BirdeyeEnv) :
    (fetchBirdeyeData params env).error = none ∨
      (fetchBirdeyeData params env).price = none := by
  unfold fetchBirdeyeData
  split
  · right; rfl
  · split
    · cases env.net with
      | ok v => left; rfl
      | error e => right; rfl
    · right; rfl

lemma fetchBirdeyeData_error_price (params : SolanaTokenMarketDataParams)
    (env : BirdeyeEnv) (h : (fetchBirdeyeData params env).error.isSome = true) :
    (fetchBirdeyeData params env).price = none := by
  rcases fetchBirdeyeData_shape params env with h0 | h0
  · rw [h0] at h; simp at h
  · exact h0

lemma fetchSolscanData_shape (params : SolanaTokenMarketDataParams)
    (env : SolscanEnv) :
    (fetchSolscanData params env).error = none ∨
      (fetchSolscanData params env).circulatingSupply = none := by
  unfold fetchSolscanData
  split
  · cases env.net with
    | ok d => left; rfl
    | error e => right; rfl
  · right; rfl

lemma fetchSolscanData_error_supply (params : SolanaTokenMarketDataParams)
    (env : SolscanEnv) (h : (fetchSolscanData params env).error.isSome = true) :
    (fetchSolscanData params env).circulatingSupply = none := by
  rcases fetchSolscanData_shape params env with h0 | h0
  · rw [h0] at h; simp at h
  · exact h0

lemma collectErrors_length_gt_one (b : BirdeyeData) (s : SolscanData) :
    (collectErrors b s).length > 1 ↔ b.error.isSome = true ∧ s.error.isSome = true := by
  unfold collectErrors
  cases b.error <;> cases s.error <;> simp

/-- C1: with at least one of tokenSymbol or tokenMintAddress set, `execute`
returns the wholesale error object iff both sources carry an error and the
aggregate has no usable primary field (no Birdeye price and no Solscan
circulating supply); in every other case it returns the aggregate carrying
both per-source payloads, the collected error strings and the timestamp. -/
theorem C1_market_aggregate_failure_iff (params : SolanaTokenMarketDataParams)
    (benv : BirdeyeEnv) (senv : SolscanEnv) (now : String)
    (h : (strTruthy params.tokenSymbol || strTruthy params.tokenMintAddress) = true) :
    ((∃ msg, getSolanaTokenMarketDataTool.execute params benv senv now =
        MarketToolResult.errObj msg) ↔
      ((fetchBirdeyeData params benv).error.isSome = true ∧
       (fetchSolscanData params senv).error.isSome = true ∧
       (fetchBirdeyeData params benv).price = none ∧
       (fetchSolscanData params senv).circulatingSupply = none)) ∧
    (¬((fetchBirdeyeData params benv).error.isSome = true ∧
       (fetchSolscanData params senv).error.isSome = true ∧
       (fetchBirdeyeData params benv).price = none ∧
       (fetchSolscanData params senv).circulatingSupply = none) →
      getSolanaTokenMarketDataTool.execute params benv senv now =
        MarketToolResult.data
          { tokenSymbol := params.tokenSymbol,
            tokenMintAddress := params.tokenMintAddress,
            birdeye := some (fetchBirdeyeData params benv),
            solscan := some (fetchSolscanData params senv),
            lastUpdated := some now,
            errors := collectErrors (fetchBirdeyeData params benv)
                        (fetchSolscanData params senv) }) := by
  have hguard : ¬((!strTruthy params.tokenSymbol &&
      !strTruthy params.tokenMintAddress) = true) := by
    cases hts : strTruthy params.tokenSymbol <;>
      cases htm : strTruthy params.tokenMintAddress <;> simp_all
  have hexec : getSolanaTokenMarketDataTool.execute params benv senv now =
      if numTruthy (fetchBirdeyeData params benv).price = false ∧
          numTruthy (fetchSolscanData params senv).circulatingSupply = false ∧
          (collectErrors (fetchBirdeyeData params benv)
            (fetchSolscanData params senv)).length > 1 then
        MarketToolResult.errObj
          ("Failed to fetch significant market data. Errors: "
            ++ String.intercalate "; "
                (collectErrors (fetchBirdeyeData params benv)
                  (fetchSolscanData params senv)))
      else
        MarketToolResult.data
          { tokenSymbol := params.tokenSymbol,
            tokenMintAddress := params.tokenMintAddress,
            birdeye := some (fetchBirdeyeData params benv),
            solscan := some (fetchSolscanData params senv),
            lastUpdated := some now,
            errors := collectErrors (fetchBirdeyeData params benv)
                        (fetchSolscanData params senv) } := by
    unfold getSolanaTokenMarketDataTool.execute
    rw [if_neg hguard]
  have hcond : (numTruthy (fetchBirdeyeData params benv).price = false ∧
      numTruthy (fetchSolscanData params senv).circulatingSupply = false ∧
      (collectErrors (fetchBirdeyeData params benv)
        (fetchSolscanData params senv)).length > 1)
      ↔ ((fetchBirdeyeData params benv).error.isSome = true ∧
         (fetchSolscanData params senv).error.isSome = true ∧
         (fetchBirdeyeData params benv).price = none ∧
         (fetchSolscanData params senv).circulatingSupply = none) := by
    constructor
    · rintro ⟨_, _, hlen⟩
      have hboth := (collectErrors_length_gt_one _ _).mp hlen
      exact ⟨hboth.1, hboth.2,
        fetchBirdeyeData_error_price params benv hboth.1,
        fetchSolscanData_error_supply params senv hboth.2⟩
    · rintro ⟨hbe, hse, hbp, hss⟩
      refine ⟨by simp [hbp, numTruthy], by simp [hss, numTruthy], ?_⟩
      exact (collectErrors_length_gt_one _ _).mpr ⟨hbe, hse⟩
  by_cases hc : (numTruthy (fetchBirdeyeData params benv).price = false ∧
      numTruthy (fetchSolscanData params senv).circulatingSupply = false ∧
      (collectErrors (fetchBirdeyeData params benv)
        (fetchSolscanData params senv)).length > 1)
  · have he := hexec.trans (if_pos hc)
    exact ⟨⟨fun _ => hcond.mp hc, fun _ => ⟨_, he⟩⟩,
      fun hn => absurd (hcond.mp hc) hn⟩
  · have he := hexec.trans (if_neg hc)
    refine ⟨⟨?_, fun hr => absurd (hcond.mpr hr) hc⟩, fun _ => he⟩
    rintro ⟨msg, hm⟩
    exact MarketToolResult.noConfusion (he.symm.trans hm)

/-- Witness for C1 at a concrete input: only the symbol is set, both
sources fail, and `execute` returns the wholesale error object. -/
theorem C1_market_aggregate_failure_iff_witness :
    (strTruthy (some "$NOS") || strTruthy (none : Option String)) = true ∧
    (∃ msg, getSolanaTokenMarketDataTool.execute
        ⟨some "$NOS", none⟩ ⟨true, Except.ok none⟩
        ⟨Except.ok ⟨none, none, none⟩⟩ "2025-01-01T00:00:00.000Z" =
        MarketToolResult.errObj msg) := by
  refine ⟨by decide, ?_⟩
  exact (C1_market_aggregate_failure_iff ⟨some "$NOS", none⟩ ⟨true, Except.ok none⟩
    ⟨Except.ok ⟨none, none, none⟩⟩ "2025-01-01T00:00:00.000Z" (by decide)).1.mpr
    (by decide)

/-- C4: with only tokenSymbol set and the Birdeye API key configured, both
fetchers return mint-address errors, the aggregate has no usable field, and
`execute` returns the single wholesale error whose message carries both
collected per-source error messages. -/
theorem C4_symbol_only_aggregate_failure (params : SolanaTokenMarketDataParams)
    (benv : BirdeyeEnv) (senv : SolscanEnv) (now : String)
    (hsym : strTruthy params.tokenSymbol = true)
    (hmint : strTruthy params.tokenMintAddress = false)
    (hkey : benv.apiKeyConfigured = true) :
    (fetchBirdeyeData params benv).error =
      some "Birdeye: Mint address preferred for precise data." ∧
    (fetchSolscanData params senv).error =
      some "Solscan: Mint address required for precise data." ∧
    (fetchBirdeyeData params benv).price = none ∧
    (fetchSolscanData params senv).circulatingSupply = none ∧
    getSolanaTokenMarketDataTool.execute params benv senv now =
      MarketToolResult.errObj
        ("Failed to fetch significant market data. Errors: "
          ++ String.intercalate "; "
              ["Birdeye: Mint address preferred for precise data.",
               "Solscan: Mint address required for precise data."]) := by
  have hb : fetchBirdeyeData params benv =
      { error := some "Birdeye: Mint address preferred for precise data.",
        source := some "Birdeye" } := by
    unfold fetchBirdeyeData
    rw [hkey, hmint]
    simp
  have hs : fetchSolscanData params senv =
      { error := some "Solscan: Mint address required for precise data.",
        source := some "Solscan" } := by
    unfold fetchSolscanData
    rw [hmint]
    simp
  have hguard : ¬((!strTruthy params.tokenSymbol &&
      !strTruthy params.tokenMintAddress) = true) := by rw [hsym]; simp
  refine ⟨by rw [hb], by rw [hs], by rw [hb], by rw [hs], ?_⟩
  unfold getSolanaTokenMarketDataTool.execute
  rw [if_neg hguard, hb, hs]
  rw [if_pos (by exact ⟨rfl, rfl, by simp [collectErrors]⟩)]
  rfl

/-- Witness for C4 at a concrete input. -/
theorem C4_symbol_only_aggregate_failure_witness :
    getSolanaTokenMarketDataTool.execute ⟨some "$NOS", none⟩
      ⟨true, Except.ok (some 3)⟩ ⟨Except.ok ⟨none, some 5, none⟩⟩ "t" =
      MarketToolResult.errObj
        ("Failed to fetch significant market data. Errors: "
          ++ String.intercalate "; "
              ["Birdeye: Mint address preferred for precise data.",
               "Solscan: Mint address required for precise data."]) :=
  (C4_symbol_only_aggregate_failure ⟨some "$NOS", none⟩ ⟨true, Except.ok (some 3)⟩
    ⟨Except.ok ⟨none, some 5, none⟩⟩ "t" (by decide) (by decide) rfl).2.2.2.2

/-! ## lib/tools/retrieve.ts -/

/-- `CONTENT_CHARACTER_LIMIT` of lib/tools/retrieve.ts. -/
def CONTENT_CHARACTER_LIMIT : Nat := 10000

/-- JS `String.prototype.slice(0, n)` on the characters of `s`. -/
def jsSlice (s : String) (n : Nat) : String := String.mk (s.data.take n)

/-- One entry of the result shape (`SearchResultsType`) both retrieval
backends produce. -/
structure RetrieveItem where
  title : String
  content : String
  url : String
deriving DecidableEq

/-- The result shape (`SearchResultsType`) of the retrieval backends. -/
structure RetrieveResults where
  results : List RetrieveItem
  query : String
  images : List String
deriving DecidableEq

/-- The fields `fetchJinaReaderData` reads from `json.data`. -/
structure JinaDoc where
  title : String
  content : String
  url : String
deriving DecidableEq

/-- Environment of one `fetchJinaReaderData` call: `none` models a thrown
transport error, a missing `data` field, or an empty one. -/
structure JinaEnv where
  data : Option JinaDoc

/-- `fetchJinaReaderData` of lib/tools/retrieve.ts. -/
def fetchJinaReaderData (url : String) (env : JinaEnv) : Option RetrieveResults :=
  match env.data with
  | none => none
  | some d =>
      some { results := [{ title := d.title,
                           content := jsSlice d.content CONTENT_CHARACTER_LIMIT,
                           url := d.url }],
             query := "", images := [] }

/-- The fields `fetchTavilyExtractData` reads from `json.results[0]`. -/
structure TavilyExtractDoc where
  raw_content : String
  url : String
deriving DecidableEq

/-- Environment of one `fetchTavilyExtractData` call: `none` models a thrown
transport error or an empty `results` array. -/
structure TavilyExtractEnv where
  firstResult : Option TavilyExtractDoc

/-- `fetchTavilyExtractData` of lib/tools/retrieve.ts: the title is the
first 100 characters of the truncated content. -/
def fetchTavilyExtractData (url : String) (env : TavilyExtractEnv) :
    Option RetrieveResults :=
  match env.firstResult with
  | none => none
  | some r =>
      some { results := [{ title := jsSlice (jsSlice r.raw_content CONTENT_CHARACTER_LIMIT) 100,
                           content := jsSlice r.raw_content CONTENT_CHARACTER_LIMIT,
                           url := r.url }],
             query := "", images := [] }

lemma jsSlice_length_le (s : String) (n : Nat) : (jsSlice s n).length ≤ n := by
  simp only [jsSlice, String.length]
  exact List.length_take_le n s.data

lemma jsSlice_of_le (s : String) (n : Nat) (h : s.length ≤ n) : jsSlice s n = s := by
  cases s with
  | mk l =>
      simp only [jsSlice, String.length] at *
      rw [List.take_of_length_le h]

/-- C8: every successful retrieval, through the Jina backend or the Tavily
Extract backend, returns content of at most 10,000 characters, and content
of at most 10,000 characters is passed through unchanged. -/
theorem C8_retrieval_content_capped :
    (∀ url env r, fetchJinaReaderData url env = some r →
       (∀ it ∈ r.results, it.content.length ≤ CONTENT_CHARACTER_LIMIT) ∧
       (∀ d, env.data = some d → d.content.length ≤ CONTENT_CHARACTER_LIMIT →
          ∃ it, r.results = [it] ∧ it.content = d.content)) ∧
    (∀ url env r, fetchTavilyExtractData url env = some r →
       (∀ it ∈ r.results, it.content.length ≤ CONTENT_CHARACTER_LIMIT) ∧
       (∀ d, env.firstResult = some d →
          d.raw_content.length ≤ CONTENT_CHARACTER_LIMIT →
          ∃ it, r.results = [it] ∧ it.content = d.raw_content)) := by
  constructor
  · intro url env r h
    cases hd : env.data with
    | none => simp only [fetchJinaReaderData, hd] at h; cases h
    | some d =>
        simp only [fetchJinaReaderData, hd, Option.some.injEq] at h
        subst h
        refine ⟨?_, ?_⟩
        · intro it hit
          simp only [List.mem_singleton] at hit
          subst hit
          exact jsSlice_length_le d.content CONTENT_CHARACTER_LIMIT
        · intro d' hd' hlen
          cases hd'
          exact ⟨_, rfl, jsSlice_of_le _ _ hlen⟩
  · intro url env r h
    cases hd : env.firstResult with
    | none => simp only [fetchTavilyExtractData, hd] at h; cases h
    | some d =>
        simp only [fetchTavilyExtractData, hd, Option.some.injEq] at h
        subst h
        refine ⟨?_, ?_⟩
        · intro it hit
          simp only [List.mem_singleton] at hit
          subst hit
          exact jsSlice_length_le d.raw_content CONTENT_CHARACTER_LIMIT
        · intro d' hd' hlen
          cases hd'
          exact ⟨_, rfl, jsSlice_of_le _ _ hlen⟩

/-- Witness for C8 at concrete inputs: both backends, short content kept
whole and under the cap. -/
theorem C8_retrieval_content_capped_witness :
    fetchJinaReaderData "https://e" ⟨some ⟨"T", "hello", "https://e"⟩⟩ =
      some { results := [⟨"T", "hello", "https://e"⟩], query := "", images := [] } ∧
    (∀ it ∈ ({ results := [(⟨"T", "hello", "https://e"⟩ : RetrieveItem)],
               query := "", images := [] } : RetrieveResults).results,
       it.content.length ≤ CONTENT_CHARACTER_LIMIT) ∧
    fetchTavilyExtractData "https://e" ⟨some ⟨"world", "https://e"⟩⟩ =
      some { results := [⟨"world", "world", "https://e"⟩], query := "", images := [] } ∧
    (∃ it, ({ results := [(⟨"world", "world", "https://e"⟩ : RetrieveItem)],
              query := "", images := [] } : RetrieveResults).results = [it] ∧
       it.content = "world") := by
  have h := C8_retrieval_content_capped
  refine ⟨rfl, ?_, rfl, ?_⟩
  · exact (h.1 "https://e" ⟨some ⟨"T", "hello", "https://e"⟩⟩
      { results := [⟨"T", "hello", "https://e"⟩], query := "", images := [] } rfl).1
  · exact (h.2 "https://e" ⟨some ⟨"world", "https://e"⟩⟩
      { results := [⟨"world", "world", "https://e"⟩], query := "", images := [] } rfl).2
      ⟨"world", "https://e"⟩ rfl (by decide)

/-! ## lib/tools/search/providers/tavily.ts -/

/-- The fields of the JSON body `TavilySearchProvider.search` posts to the
Tavily API that the provider computes (constant boolean fields omitted). -/
structure TavilyRequestBody where
  query : String
  max_results : Nat
  search_depth : String
  include_domains : List String
  exclude_domains : List String
deriving DecidableEq

/-- `filledQuery` of `TavilySearchProvider.search`: Tavily requires at least
5 characters, so a shorter query is padded with spaces. -/
def tavilyFilledQuery (query : String) : String :=
  if query.length < 5 then
    query ++ String.mk (List.replicate (5 - query.length) ' ')
  else query

/-- The request body assembled by `TavilySearchProvider.search`. -/
def tavilySearchRequestBody (query : String) (maxResults : Nat)
    (searchDepth : String) (includeDomains excludeDomains : List String) :
    TavilyRequestBody :=
  { query := tavilyFilledQuery query,
    max_results := max maxResults 5,
    search_depth := searchDepth,
    include_domains := includeDomains,
    exclude_domains := excludeDomains }

/-- C9: the provider-bound request asks for `max(maxResults, 5)` results —
never fewer than 5 — and the query is padded with spaces to exactly length
5 when shorter than 5 characters, otherwise passed unchanged. -/
theorem C9_tavily_min_results_and_padding (query : String) (maxResults : Nat)
    (searchDepth : String) (includeDomains excludeDomains : List String) :
    (tavilySearchRequestBody query maxResults searchDepth includeDomains
        excludeDomains).max_results = max maxResults 5 ∧
    5 ≤ (tavilySearchRequestBody query maxResults searchDepth includeDomains
        excludeDomains).max_results ∧
    (query.length < 5 →
      (tavilySearchRequestBody query maxResults searchDepth includeDomains
          excludeDomains).query =
        query ++ String.mk (List.replicate (5 - query.length) ' ') ∧
      (tavilySearchRequestBody query maxResults searchDepth includeDomains
          excludeDomains).query.length = 5) ∧
    (¬ query.length < 5 →
      (tavilySearchRequestBody query maxResults searchDepth includeDomains
          excludeDomains).query = query) := by
  refine ⟨rfl, Nat.le_max_right _ _, ?_, ?_⟩
  · intro h
    have hq : (tavilySearchRequestBody query maxResults searchDepth includeDomains
        excludeDomains).query =
        query ++ String.mk (List.replicate (5 - query.length) ' ') := by
      simp only [tavilySearchRequestBody, tavilyFilledQuery, if_pos h]
    refine ⟨hq, ?_⟩
    rw [hq, String.length_append]
    have hpad : (String.mk (List.replicate (5 - query.length) ' ')).length
        = 5 - query.length := by
      rw [String.length_mk, List.length_replicate]
    rw [hpad]
    omega
  · intro h
    simp only [tavilySearchRequestBody, tavilyFilledQuery, if_neg h]

/-- Witness for C9 at a concrete input: a 2-character query and a request
for 2 results become a 5-character query and 5 results. -/
theorem C9_tavily_min_results_and_padding_witness :
    (tavilySearchRequestBody "ab" 2 "basic" [] []).max_results = 5 ∧
    (tavilySearchRequestBody "ab" 2 "basic" [] []).query.length = 5 := by
  have h := C9_tavily_min_results_and_padding "ab" 2 "basic" [] []
  exact ⟨h.1.trans (by decide), (h.2.2.1 (by decide)).2⟩

/-! ## lib/streaming/parse-tool-call.ts (modelled from the spec) -/

/-- Split a character list at the first occurrence of `pat`:
`splitOnce pat l = some (pre, post)` when `l = pre ++ pat ++ post` at the
first occurrence, else `none`. -/
def splitOnce (pat : List Char) : List Char → Option (List Char × List Char)
  | [] => if pat.isEmpty then some ([], []) else none
  | c :: rest =>
      if pat.isPrefixOf (c :: rest) then some ([], (c :: rest).drop pat.length)
      else (splitOnce pat rest).map fun pr => (c :: pr.1, pr.2)

/-- The text after the first occurrence of `tag`, when `tag` occurs. -/
def afterFirst (text tag : String) : Option String :=
  (splitOnce tag.data text.data).map fun pr => String.mk pr.2

/-- The text before the first occurrence of `tag`, when `tag` occurs. -/
def beforeFirst (text tag : String) : Option String :=
  (splitOnce tag.data text.data).map fun pr => String.mk pr.1

/-- The text of the first `openTag`...`closeTag` region, when both occur. -/
def extractBetween (text openTag closeTag : String) : Option String :=
  (afterFirst text openTag).bind fun rest => beforeFirst rest closeTag

/-- The parameter fields the orchestrator reads from a parsed invocation:
the union of the search schema's and the market-data schema's fields. -/
structure ToolParameters where
  query : Option String := none
  max_results : Option Nat := none
  search_depth : Option String := none
  include_domains : Option (List String) := none
  exclude_domains : Option (List String) := none
  tokenSymbol : Option String := none
  tokenMintAddress : Option String := none
deriving DecidableEq

/-- A parsed tool invocation; an empty `tool` means "no tool selected". -/
structure ToolInvocation where
  tool : String
  parameters : ToolParameters
deriving DecidableEq

/-- The "no tool selected" invocation. -/
def noToolInvocation : ToolInvocation := { tool := "", parameters := {} }

/-- Comma split of a character list (for comma-separated list fields). -/
def splitCommaAux : List Char → List Char → List (List Char)
  | [], acc => [acc.reverse]
  | c :: rest, acc =>
      if c = ',' then acc.reverse :: splitCommaAux rest []
      else splitCommaAux rest (c :: acc)

/-- Comma split of a string. -/
def commaSplit (s : String) : List String := (splitCommaAux s.data []).map String.mk

/-- Whether the markup in `text` carries a nonempty tool name. -/
def hasToolName (text : String) : Bool :=
  match extractBetween text "<tool_call>" "</tool_call>" with
  | none => false
  | some block =>
      match extractBetween block "<tool>" "</tool>" with
      | none => false
      | some nm => !nm.isEmpty

/-- Modelled from the spec: `parseToolCallXml` of
lib/streaming/parse-tool-call.ts, a file absent from the sources. Per spec
section 4.3 the parser extracts the tool name first; no tool block, an empty
tool name, or unparseable markup all normalize to the same "no tool
selected" invocation and it never throws; matched parameter fields are
coerced (string passthrough, numeric parse, comma-separated split for
list-typed fields) and missing fields are left absent, downstream validation
being the orchestrator's job. Default substitution for optional search
fields is immaterial downstream (the orchestrator re-applies defaults with
JS or-fallbacks) and is not modelled. -/
def parseToolCallXml (text : String) : ToolInvocation :=
  match extractBetween text "<tool_call>" "</tool_call>" with
  | none => noToolInvocation
  | some block =>
      match extractBetween block "<tool>" "</tool>" with
      | none => noToolInvocation
      | some toolName =>
          if toolName.isEmpty then noToolInvocation
          else
            { tool := toolName,
              parameters :=
                { query := extractBetween block "<query>" "</query>",
                  max_results :=
                    (extractBetween block "<max_results>" "</max_results>").bind
                      (fun s => s.toNat?),
                  search_depth := extractBetween block "<search_depth>" "</search_depth>",
                  include_domains :=
                    (extractBetween block "<include_domains>" "</include_domains>").map
                      commaSplit,
                  exclude_domains :=
                    (extractBetween block "<exclude_domains>" "</exclude_domains>").map
                      commaSplit,
                  tokenSymbol := extractBetween block "<tokenSymbol>" "</tokenSymbol>",
                  tokenMintAddress :=
                    extractBetween block "<tokenMintAddress>" "</tokenMintAddress>" } }

/-! ## lib/streaming/tool-execution.ts (the later revision in the file) -/

/-- Message roles used by the orchestrator. -/
inductive Role where
  | user
  | assistant
  | system
  | data
deriving DecidableEq

/-- A progress event's state: `call`, `result` or `error`. -/
inductive ProgressState where
  | call
  | result
  | error
deriving DecidableEq

/-- The serialized search payload (`JSON.stringify(searchResults)`),
carried opaquely. -/
structure SearchPayload where
  raw : String
deriving DecidableEq

/-- A serialized tool result (`toolResultJson`). JSON serialization is
represented by the value serialized: `errorObj msg` stands for
`JSON.stringify` of an object with the single field `error = msg`. -/
inductive ToolResultJson where
  | errorObj (msg : String)
  | searchResults (p : SearchPayload)
  | marketData (r : MarketToolResult)
deriving DecidableEq

/-- Whether a serialized result is a synthesized failure payload: a
top-level error object, or the market tool's wholesale error object. -/
def isFailureJson : ToolResultJson → Bool
  | ToolResultJson.errorObj _ => true
  | ToolResultJson.marketData (MarketToolResult.errObj _) => true
  | _ => false

/-- Message content: `str` is plain text; `toolOut nm r` stands for the
template string `[Tool Used: nm]` followed by `Output:` and the serialized
result `r`. -/
inductive MessageContent where
  | str (s : String)
  | toolOut (toolName : String) (result : ToolResultJson)
deriving DecidableEq

/-- A conversation turn (`CoreMessage`). -/
structure CoreMessage where
  role : Role
  content : MessageContent
deriving DecidableEq

/-- One progress event written to the data stream; `args` carries
`JSON.stringify(toolCall.parameters)`, represented by the parameters. -/
structure ProgressEvent where
  state : ProgressState
  toolCallId : String
  toolName : String
  args : ToolParameters
  result : Option ToolResultJson
deriving DecidableEq

/-- The data record the source calls `toolCallDataAnnotation` (role `data`):
tool call id, tool name, serialized arguments and serialized result. -/
structure DataAnn where
  toolCallId : String
  toolName : String
  args : ToolParameters
  result : Option ToolResultJson
deriving DecidableEq

/-- The synthesis instruction of the second synthesized turn, a fixed
template instantiated at the tool's name. -/
def synthesisInstruction (toolName : String) : String :=
  "The user's original query led to the use of the '" ++ toolName
    ++ "' tool, and the output is provided above.\n"
    ++ "Please analyze this output in the context of our conversation.\n"
    ++ "- If the tool was 'search', synthesize the search results to answer the user's question about the Solana ecosystem. Cite sources using [number](url) format.\n"
    ++ "- If the tool was 'getSolanaTokenMarketDataTool', present the key market data (price, volume, market cap, supply, holders) clearly. Mention the sources (Birdeye, Solscan) and the 'lastUpdated' time from the tool's output.\n"
    ++ "- If there were errors from the tool, acknowledge them.\n"
    ++ "Now, provide a comprehensive response to the user based on this information."

/-- Everything one `executeToolCall` pass produces: the data-stream writes
in order, the data record, the synthesized turns, the conversation as the
function leaves it, and how often each adapter was invoked. -/
structure ToolExecutionOutput where
  events : List ProgressEvent
  dataAnn : Option DataAnn
  toolCallMessages : List CoreMessage
  coreMessagesAfter : List CoreMessage
  searchApiCalls : Nat
  marketToolCalls : Nat
deriving DecidableEq

/-- Environment of one `executeToolCall` pass: the tool-selection model
completion (`generateText(...).text`), the generated id, the outcome of
`executeSearchViaApi` (`Except.error` models a thrown exception), and the
market-data tool's environments. -/
structure OrchestratorEnv where
  selectionText : String
  generatedId : String
  searchApi : Except String SearchPayload
  benv : BirdeyeEnv
  senv : SolscanEnv
  now : String

/-- The empty result returned when tool use is off or no tool was chosen. -/
def emptyToolExecution (coreMessages : List CoreMessage) : ToolExecutionOutput :=
  { events := [], dataAnn := none, toolCallMessages := [],
    coreMessagesAfter := coreMessages, searchApiCalls := 0, marketToolCalls := 0 }

/-- The dispatch step of `executeToolCall`: the serialized result, the state
of the progress event written after the call, and the number of invocations
of `executeSearchViaApi` and of `getSolanaTokenMarketDataTool.execute`.
The `Except.error` case of `env.searchApi` is the source's catch block. -/
def dispatchTool (toolCall : ToolInvocation) (env : OrchestratorEnv) :
    ToolResultJson × ProgressState × Nat × Nat :=
  if toolCall.tool = "search" then
    if !strTruthy toolCall.parameters.query then
      (ToolResultJson.errorObj "Search query missing.", ProgressState.result, 0, 0)
    else
      match env.searchApi with
      | Except.ok payload =>
          (ToolResultJson.searchResults payload, ProgressState.result, 1, 0)
      | Except.error e =>
          (ToolResultJson.errorObj
              ("Failed to execute tool " ++ toolCall.tool ++ ": " ++ e),
            ProgressState.error, 1, 0)
  else if toolCall.tool = "getSolanaTokenMarketDataTool" then
    if !strTruthy toolCall.parameters.tokenSymbol &&
        !strTruthy toolCall.parameters.tokenMintAddress then
      (ToolResultJson.errorObj "Token symbol or mint address missing for market data.",
        ProgressState.result, 0, 0)
    else
      (ToolResultJson.marketData
          (getSolanaTokenMarketDataTool.execute
            ⟨toolCall.parameters.tokenSymbol, toolCall.parameters.tokenMintAddress⟩
            env.benv env.senv env.now),
        ProgressState.result, 0, 1)
  else
    (ToolResultJson.errorObj
        ("Tool '" ++ toolCall.tool ++ "' is not implemented or recognized."),
      ProgressState.result, 0, 0)

/-- `executeToolCall` of lib/streaming/tool-execution.ts (later revision).
Data-stream writes become the `events` list (the `call` write, then the
`result` or `error` write); `coreMessagesAfter` records that the function
never writes to the conversation it was given. In the source the invocation
is re-parsed with the schema matching the chosen tool name; the modelled
parser's result does not depend on the schema, so a single parse stands for
both calls. -/
def executeToolCall (coreMessages : List CoreMessage) (model : String)
    (searchMode : Bool) (env : OrchestratorEnv) : ToolExecutionOutput :=
  if searchMode = false then emptyToolExecution coreMessages
  else if (parseToolCallXml env.selectionText).tool = "" then
    emptyToolExecution coreMessages
  else
    { events :=
        [ { state := ProgressState.call,
            toolCallId := "call_" ++ env.generatedId,
            toolName := (parseToolCallXml env.selectionText).tool,
            args := (parseToolCallXml env.selectionText).parameters,
            result := none },
          { state := (dispatchTool (parseToolCallXml env.selectionText) env).2.1,
            toolCallId := "call_" ++ env.generatedId,
            toolName := (parseToolCallXml env.selectionText).tool,
            args := (parseToolCallXml env.selectionText).parameters,
            result := some (dispatchTool (parseToolCallXml env.selectionText) env).1 } ],
      dataAnn :=
        some { toolCallId := "call_" ++ env.generatedId,
               toolName := (parseToolCallXml env.selectionText).tool,
               args := (parseToolCallXml env.selectionText).parameters,
               result := some (dispatchTool (parseToolCallXml env.selectionText) env).1 },
      toolCallMessages :=
        [ { role := Role.assistant,
            content := MessageContent.toolOut (parseToolCallXml env.selectionText).tool
                         (dispatchTool (parseToolCallXml env.selectionText) env).1 },
          { role := Role.user,
            content := MessageContent.str
                         (synthesisInstruction (parseToolCallXml env.selectionText).tool) } ],
      coreMessagesAfter := coreMessages,
      searchApiCalls := (dispatchTool (parseToolCallXml env.selectionText) env).2.2.1,
      marketToolCalls := (dispatchTool (parseToolCallXml env.selectionText) env).2.2.2 }

/-! Helper lemmas about the orchestrator. -/

lemma executeToolCall_eq (msgs : List CoreMessage) (model : String)
    (env : OrchestratorEnv)
    (h : (parseToolCallXml env.selectionText).tool ≠ "") :
    executeToolCall msgs model true env =
      { events :=
          [ { state := ProgressState.call,
              toolCallId := "call_" ++ env.generatedId,
              toolName := (parseToolCallXml env.selectionText).tool,
              args := (parseToolCallXml env.selectionText).parameters,
              result := none },
            { state := (dispatchTool (parseToolCallXml env.selectionText) env).2.1,
              toolCallId := "call_" ++ env.generatedId,
              toolName := (parseToolCallXml env.selectionText).tool,
              args := (parseToolCallXml env.selectionText).parameters,
              result := some (dispatchTool (parseToolCallXml env.selectionText) env).1 } ],
        dataAnn :=
          some { toolCallId := "call_" ++ env.generatedId,
                 toolName := (parseToolCallXml env.selectionText).tool,
                 args := (parseToolCallXml env.selectionText).parameters,
                 result := some (dispatchTool (parseToolCallXml env.selectionText) env).1 },
        toolCallMessages :=
          [ { role := Role.assistant,
              content := MessageContent.toolOut (parseToolCallXml env.selectionText).tool
                           (dispatchTool (parseToolCallXml env.selectionText) env).1 },
            { role := Role.user,
              content := MessageContent.str
                           (synthesisInstruction (parseToolCallXml env.selectionText).tool) } ],
        coreMessagesAfter := msgs,
        searchApiCalls := (dispatchTool (parseToolCallXml env.selectionText) env).2.2.1,
        marketToolCalls := (dispatchTool (parseToolCallXml env.selectionText) env).2.2.2 } := by
  unfold executeToolCall
  rw [if_neg (by simp), if_neg h]

lemma dispatchTool_state (tc : ToolInvocation) (env : OrchestratorEnv) :
    (dispatchTool tc env).2.1 = ProgressState.result ∨
      (dispatchTool tc env).2.1 = ProgressState.error := by
  unfold dispatchTool
  split
  · split
    · left; rfl
    · cases env.searchApi with
      | ok p => left; rfl
      | error e => right; rfl
  · split
    · split
      · left; rfl
      · left; rfl
    · left; rfl

lemma parseToolCallXml_no_name (text : String) (h : hasToolName text = false) :
    parseToolCallXml text = noToolInvocation := by
  unfold hasToolName at h
  unfold parseToolCallXml
  cases hb : extractBetween text "<tool_call>" "</tool_call>" with
  | none => simp [hb]
  | some block =>
      simp only [hb] at h
      simp only [hb]
      cases ht : extractBetween block "<tool>" "</tool>" with
      | none => simp [ht]
      | some nm =>
          simp only [ht] at h
          simp only [ht]
          have hemp : nm.isEmpty = true := by
            cases he : nm.isEmpty
            · rw [he] at h; simp at h
            · rfl
          rw [if_pos hemp]

/-! Sample environments used by the closed theorems below. -/

/-- A pass whose model completion picks `search` with no query parameter. -/
def sampleNoQueryEnv : OrchestratorEnv :=
  { selectionText :=
      "<tool_call><tool>search</tool><parameters></parameters></tool_call>",
    generatedId := "id0", searchApi := Except.ok ⟨"[]"⟩,
    benv := ⟨true, Except.ok none⟩, senv := ⟨Except.ok ⟨none, none, none⟩⟩,
    now := "t" }

/-- A pass whose model completion picks the market-data tool with neither
tokenSymbol nor tokenMintAddress. -/
def sampleNoIdsEnv : OrchestratorEnv :=
  { selectionText :=
      "<tool_call><tool>getSolanaTokenMarketDataTool</tool><parameters></parameters></tool_call>",
    generatedId := "id1", searchApi := Except.ok ⟨"[]"⟩,
    benv := ⟨true, Except.ok none⟩, senv := ⟨Except.ok ⟨none, none, none⟩⟩,
    now := "t" }

/-- A pass whose model completion picks `search` with a query, the search
API succeeding. -/
def sampleSearchEnv : OrchestratorEnv :=
  { selectionText :=
      "<tool_call><tool>search</tool><parameters><query>Nosana overview</query></parameters></tool_call>",
    generatedId := "id2", searchApi := Except.ok ⟨"[]"⟩,
    benv := ⟨true, Except.ok none⟩, senv := ⟨Except.ok ⟨none, none, none⟩⟩,
    now := "t" }

/-- A pass whose model completion declines to pick a tool. -/
def sampleEmptyToolEnv : OrchestratorEnv :=
  { selectionText := "<tool_call><tool></tool></tool_call>",
    generatedId := "id3", searchApi := Except.ok ⟨"[]"⟩,
    benv := ⟨true, Except.ok none⟩, senv := ⟨Except.ok ⟨none, none, none⟩⟩,
    now := "t" }

/-- A pass whose model completion names a tool the orchestrator does not
implement. -/
def sampleUnknownToolEnv : OrchestratorEnv :=
  { selectionText := "<tool_call><tool>askQuestion</tool></tool_call>",
    generatedId := "id4", searchApi := Except.ok ⟨"[]"⟩,
    benv := ⟨true, Except.ok none⟩, senv := ⟨Except.ok ⟨none, none, none⟩⟩,
    now := "t" }

/-- C2 (counterexample): on a search pass with no query the pass ends in a
synthesized Failure, yet the progress event the orchestrator emits after
the `call` event has state `result`, not state `error` — refuting the
claim that such a pass emits state `error`. -/
theorem C2_error_progress_counterexample :
    (executeToolCall [] "m" true sampleNoQueryEnv).dataAnn =
      some { toolCallId := "call_id0", toolName := "search", args := {},
             result := some (ToolResultJson.errorObj "Search query missing.") } ∧
    (executeToolCall [] "m" true sampleNoQueryEnv).events.map ProgressEvent.state =
      [ProgressState.call, ProgressState.result] ∧
    ProgressState.result ≠ ProgressState.error := by
  refine ⟨rfl, rfl, by decide⟩

/-- C2 (amended): whenever a pass ends in a synthesized Failure — search
with no query, market data with neither identifier, or a market aggregate
failure — the progress event emitted after `call` has state `result`,
carrying the failure payload; state `error` arises only from a thrown
adapter. -/
theorem C2_failure_progress_is_result (msgs : List CoreMessage) (model : String)
    (env : OrchestratorEnv)
    (h : ((parseToolCallXml env.selectionText).tool = "search" ∧
          strTruthy (parseToolCallXml env.selectionText).parameters.query = false) ∨
         ((parseToolCallXml env.selectionText).tool = "getSolanaTokenMarketDataTool" ∧
          strTruthy (parseToolCallXml env.selectionText).parameters.tokenSymbol = false ∧
          strTruthy (parseToolCallXml env.selectionText).parameters.tokenMintAddress = false) ∨
         ((parseToolCallXml env.selectionText).tool = "getSolanaTokenMarketDataTool" ∧
          (strTruthy (parseToolCallXml env.selectionText).parameters.tokenSymbol = true ∨
           strTruthy (parseToolCallXml env.selectionText).parameters.tokenMintAddress = true) ∧
          ∃ m, getSolanaTokenMarketDataTool.execute
              ⟨(parseToolCallXml env.selectionText).parameters.tokenSymbol,
               (parseToolCallXml env.selectionText).parameters.tokenMintAddress⟩
              env.benv env.senv env.now = MarketToolResult.errObj m)) :
    (executeToolCall msgs model true env).events.map ProgressEvent.state =
      [ProgressState.call, ProgressState.result] ∧
    ∃ j, isFailureJson j = true ∧
      (executeToolCall msgs model true env).dataAnn =
        some { toolCallId := "call_" ++ env.generatedId,
               toolName := (parseToolCallXml env.selectionText).tool,
               args := (parseToolCallXml env.selectionText).parameters,
               result := some j } := by
  have htool : (parseToolCallXml env.selectionText).tool ≠ "" := by
    rcases h with ⟨h1, _⟩ | ⟨h1, _, _⟩ | ⟨h1, _, _⟩ <;> rw [h1] <;> simp
  rw [executeToolCall_eq msgs model env htool]
  rcases h with ⟨h1, h2⟩ | ⟨h1, h2, h3⟩ | ⟨h1, h2, h3⟩
  · have hd : dispatchTool (parseToolCallXml env.selectionText) env =
        (ToolResultJson.errorObj "Search query missing.", ProgressState.result, 0, 0) := by
      unfold dispatchTool
      rw [if_pos h1, if_pos (by rw [h2]; rfl)]
    refine ⟨by simp [hd], ToolResultJson.errorObj "Search query missing.", rfl, by simp [hd]⟩
  · have hd : dispatchTool (parseToolCallXml env.selectionText) env =
        (ToolResultJson.errorObj "Token symbol or mint address missing for market data.",
          ProgressState.result, 0, 0) := by
      unfold dispatchTool
      rw [if_neg (by rw [h1]; decide), if_pos h1, if_pos (by rw [h2, h3]; rfl)]
    refine ⟨by simp [hd],
      ToolResultJson.errorObj "Token symbol or mint address missing for market data.",
      rfl, by simp [hd]⟩
  · obtain ⟨m, hm⟩ := h3
    have hguard : (!strTruthy (parseToolCallXml env.selectionText).parameters.tokenSymbol &&
        !strTruthy (parseToolCallXml env.selectionText).parameters.tokenMintAddress) = false := by
      rcases h2 with h2 | h2 <;> rw [h2] <;> simp
    have hd : dispatchTool (parseToolCallXml env.selectionText) env =
        (ToolResultJson.marketData (MarketToolResult.errObj m), ProgressState.result, 0, 1) := by
      unfold dispatchTool
      rw [if_neg (by rw [h1]; decide), if_pos h1, if_neg (by rw [hguard]; simp), hm]
    refine ⟨by simp [hd],
      ToolResultJson.marketData (MarketToolResult.errObj m), rfl, by simp [hd]⟩

/-- Witness for the amended C2 at a concrete input: a search pass with no
query emits `call` then `result`. -/
theorem C2_failure_progress_is_result_witness :
    (executeToolCall [] "m" true sampleNoQueryEnv).events.map ProgressEvent.state =
      [ProgressState.call, ProgressState.result] :=
  (C2_failure_progress_is_result [] "m" sampleNoQueryEnv
    (Or.inl ⟨by decide, by decide⟩)).1

/-- C3: a parsed invocation missing a required parameter — search with no
query, or market data with neither identifier — produces a Failure result
and invokes no adapter: `executeSearchViaApi` and
`getSolanaTokenMarketDataTool.execute` are each called zero times. -/
theorem C3_validation_failure_no_dispatch (msgs : List CoreMessage) (model : String)
    (env : OrchestratorEnv)
    (h : ((parseToolCallXml env.selectionText).tool = "search" ∧
          strTruthy (parseToolCallXml env.selectionText).parameters.query = false) ∨
         ((parseToolCallXml env.selectionText).tool = "getSolanaTokenMarketDataTool" ∧
          strTruthy (parseToolCallXml env.selectionText).parameters.tokenSymbol = false ∧
          strTruthy (parseToolCallXml env.selectionText).parameters.tokenMintAddress = false)) :
    (executeToolCall msgs model true env).searchApiCalls = 0 ∧
    (executeToolCall msgs model true env).marketToolCalls = 0 ∧
    ∃ m, (executeToolCall msgs model true env).dataAnn =
      some { toolCallId := "call_" ++ env.generatedId,
             toolName := (parseToolCallXml env.selectionText).tool,
             args := (parseToolCallXml env.selectionText).parameters,
             result := some (ToolResultJson.errorObj m) } := by
  have htool : (parseToolCallXml env.selectionText).tool ≠ "" := by
    rcases h with ⟨h1, _⟩ | ⟨h1, _, _⟩ <;> rw [h1] <;> simp
  rw [executeToolCall_eq msgs model env htool]
  rcases h with ⟨h1, h2⟩ | ⟨h1, h2, h3⟩
  · have hd : dispatchTool (parseToolCallXml env.selectionText) env =
        (ToolResultJson.errorObj "Search query missing.", ProgressState.result, 0, 0) := by
      unfold dispatchTool
      rw [if_pos h1, if_pos (by rw [h2]; rfl)]
    exact ⟨by simp [hd], by simp [hd], "Search query missing.", by simp [hd]⟩
  · have hd : dispatchTool (parseToolCallXml env.selectionText) env =
        (ToolResultJson.errorObj "Token symbol or mint address missing for market data.",
          ProgressState.result, 0, 0) := by
      unfold dispatchTool
      rw [if_neg (by rw [h1]; decide), if_pos h1, if_pos (by rw [h2, h3]; rfl)]
    exact ⟨by simp [hd], by simp [hd],
      "Token symbol or mint address missing for market data.", by simp [hd]⟩

/-- Witness for C3 at a concrete input: the market-data tool chosen with
neither identifier. -/
theorem C3_validation_failure_no_dispatch_witness :
    (executeToolCall [] "m" true sampleNoIdsEnv).searchApiCalls = 0 ∧
    (executeToolCall [] "m" true sampleNoIdsEnv).marketToolCalls = 0 ∧
    ∃ m, (executeToolCall [] "m" true sampleNoIdsEnv).dataAnn =
      some { toolCallId := "call_" ++ sampleNoIdsEnv.generatedId,
             toolName := (parseToolCallXml sampleNoIdsEnv.selectionText).tool,
             args := (parseToolCallXml sampleNoIdsEnv.selectionText).parameters,
             result := some (ToolResultJson.errorObj m) } :=
  C3_validation_failure_no_dispatch [] "m" sampleNoIdsEnv
    (Or.inr ⟨by decide, by decide, by decide⟩)

/-- C5: on every pass where a tool was selected (dispatched or failing
validation) the orchestrator returns exactly two new turns — an assistant
turn carrying the serialized tool result and a user turn carrying the
synthesis instruction — and leaves the input conversation unchanged. -/
theorem C5_two_synthesized_turns (msgs : List CoreMessage) (model : String)
    (env : OrchestratorEnv)
    (h : (parseToolCallXml env.selectionText).tool ≠ "") :
    ∃ r, (executeToolCall msgs model true env).dataAnn =
        some { toolCallId := "call_" ++ env.generatedId,
               toolName := (parseToolCallXml env.selectionText).tool,
               args := (parseToolCallXml env.selectionText).parameters,
               result := some r } ∧
      (executeToolCall msgs model true env).toolCallMessages =
        [ { role := Role.assistant,
            content := MessageContent.toolOut (parseToolCallXml env.selectionText).tool r },
          { role := Role.user,
            content := MessageContent.str
                         (synthesisInstruction (parseToolCallXml env.selectionText).tool) } ] ∧
      (executeToolCall msgs model true env).coreMessagesAfter = msgs := by
  rw [executeToolCall_eq msgs model env h]
  exact ⟨_, rfl, rfl, rfl⟩

/-- Witness for C5 at a concrete input (a dispatched search call, with a
nonempty input conversation left unchanged). -/
theorem C5_two_synthesized_turns_witness :
    ∃ r, (executeToolCall [⟨Role.user, MessageContent.str "hi"⟩] "m" true
            sampleSearchEnv).dataAnn =
        some { toolCallId := "call_" ++ sampleSearchEnv.generatedId,
               toolName := (parseToolCallXml sampleSearchEnv.selectionText).tool,
               args := (parseToolCallXml sampleSearchEnv.selectionText).parameters,
               result := some r } ∧
      (executeToolCall [⟨Role.user, MessageContent.str "hi"⟩] "m" true
          sampleSearchEnv).toolCallMessages =
        [ { role := Role.assistant,
            content := MessageContent.toolOut
                         (parseToolCallXml sampleSearchEnv.selectionText).tool r },
          { role := Role.user,
            content := MessageContent.str
                         (synthesisInstruction
                           (parseToolCallXml sampleSearchEnv.selectionText).tool) } ] ∧
      (executeToolCall [⟨Role.user, MessageContent.str "hi"⟩] "m" true
          sampleSearchEnv).coreMessagesAfter =
        [⟨Role.user, MessageContent.str "hi"⟩] :=
  C5_two_synthesized_turns [⟨Role.user, MessageContent.str "hi"⟩] "m"
    sampleSearchEnv (by decide)

/-- C6: a completion with no tool block, an empty tool name, or unparseable
markup normalizes to the one "no tool selected" invocation, and on such an
invocation the orchestrator terminates the pass with no data record and
zero synthesized turns (and no events and no adapter calls). -/
theorem C6_no_tool_normalization (msgs : List CoreMessage) (model : String)
    (env : OrchestratorEnv) (h : hasToolName env.selectionText = false) :
    parseToolCallXml env.selectionText = noToolInvocation ∧
    executeToolCall msgs model true env = emptyToolExecution msgs := by
  have hp := parseToolCallXml_no_name _ h
  refine ⟨hp, ?_⟩
  unfold executeToolCall
  rw [if_neg (by simp), if_pos (by rw [hp]; rfl)]

/-- Witness for C6 at a concrete input: the canonical empty-tool reply. -/
theorem C6_no_tool_normalization_witness :
    parseToolCallXml sampleEmptyToolEnv.selectionText = noToolInvocation ∧
    executeToolCall [] "m" true sampleEmptyToolEnv = emptyToolExecution [] :=
  C6_no_tool_normalization [] "m" sampleEmptyToolEnv (by decide)

/-- C7: within one tool call the events are ordered: exactly one
`call`-state event first, then exactly one event with state `result` or
`error`, both carrying the same tool call identifier. -/
theorem C7_progress_event_order (msgs : List CoreMessage) (model : String)
    (env : OrchestratorEnv)
    (h : (parseToolCallXml env.selectionText).tool ≠ "") :
    ∃ st r, (executeToolCall msgs model true env).events =
        [ { state := ProgressState.call,
            toolCallId := "call_" ++ env.generatedId,
            toolName := (parseToolCallXml env.selectionText).tool,
            args := (parseToolCallXml env.selectionText).parameters,
            result := none },
          { state := st,
            toolCallId := "call_" ++ env.generatedId,
            toolName := (parseToolCallXml env.selectionText).tool,
            args := (parseToolCallXml env.selectionText).parameters,
            result := some r } ] ∧
      (st = ProgressState.result ∨ st = ProgressState.error) ∧
      st ≠ ProgressState.call := by
  rw [executeToolCall_eq msgs model env h]
  refine ⟨_, _, rfl, dispatchTool_state _ env, ?_⟩
  rcases dispatchTool_state (parseToolCallXml env.selectionText) env with hs | hs <;>
    rw [hs] <;> decide

/-- Witness for C7 at a concrete input (a dispatched search call). -/
theorem C7_progress_event_order_witness :
    ∃ st r, (executeToolCall [] "m" true sampleSearchEnv).events =
        [ { state := ProgressState.call,
            toolCallId := "call_" ++ sampleSearchEnv.generatedId,
            toolName := (parseToolCallXml sampleSearchEnv.selectionText).tool,
            args := (parseToolCallXml sampleSearchEnv.selectionText).parameters,
            result := none },
          { state := st,
            toolCallId := "call_" ++ sampleSearchEnv.generatedId,
            toolName := (parseToolCallXml sampleSearchEnv.selectionText).tool,
            args := (parseToolCallXml sampleSearchEnv.selectionText).parameters,
            result := some r } ] ∧
      (st = ProgressState.result ∨ st = ProgressState.error) ∧
      st ≠ ProgressState.call :=
  C7_progress_event_order [] "m" sampleSearchEnv (by decide)

/-- C10: a nonempty tool name that is neither `search` nor
`getSolanaTokenMarketDataTool` is not normalized to the no-tool outcome:
the pass still emits the `call` and `result` events and the two synthesized
turns, the result payload is the error object naming the unimplemented
tool, and no adapter is invoked. -/
theorem C10_unknown_tool_full_pass (msgs : List CoreMessage) (model : String)
    (env : OrchestratorEnv)
    (h1 : (parseToolCallXml env.selectionText).tool ≠ "")
    (h2 : (parseToolCallXml env.selectionText).tool ≠ "search")
    (h3 : (parseToolCallXml env.selectionText).tool ≠ "getSolanaTokenMarketDataTool") :
    (executeToolCall msgs model true env).events.map ProgressEvent.state =
      [ProgressState.call, ProgressState.result] ∧
    (executeToolCall msgs model true env).dataAnn =
      some { toolCallId := "call_" ++ env.generatedId,
             toolName := (parseToolCallXml env.selectionText).tool,
             args := (parseToolCallXml env.selectionText).parameters,
             result := some (ToolResultJson.errorObj
               ("Tool '" ++ (parseToolCallXml env.selectionText).tool
                 ++ "' is not implemented or recognized.")) } ∧
    (executeToolCall msgs model true env).toolCallMessages =
      [ { role := Role.assistant,
          content := MessageContent.toolOut (parseToolCallXml env.selectionText).tool
            (ToolResultJson.errorObj
              ("Tool '" ++ (parseToolCallXml env.selectionText).tool
                ++ "' is not implemented or recognized.")) },
        { role := Role.user,
          content := MessageContent.str
                       (synthesisInstruction (parseToolCallXml env.selectionText).tool) } ] ∧
    (executeToolCall msgs model true env).searchApiCalls = 0 ∧
    (executeToolCall msgs model true env).marketToolCalls = 0 := by
  have hd : dispatchTool (parseToolCallXml env.selectionText) env =
      (ToolResultJson.errorObj
          ("Tool '" ++ (parseToolCallXml env.selectionText).tool
            ++ "' is not implemented or recognized."),
        ProgressState.result, 0, 0) := by
    unfold dispatchTool
    rw [if_neg h2, if_neg h3]
  rw [executeToolCall_eq msgs model env h1]
  exact ⟨by simp [hd], by simp [hd], by simp [hd], by simp [hd], by simp [hd]⟩

/-- Witness for C10 at a concrete input: the unknown tool `askQuestion`. -/
theorem C10_unknown_tool_full_pass_witness :
    (executeToolCall [] "m" true sampleUnknownToolEnv).events.map ProgressEvent.state =
      [ProgressState.call, ProgressState.result] ∧
    (executeToolCall [] "m" true sampleUnknownToolEnv).dataAnn =
      some { toolCallId := "call_" ++ sampleUnknownToolEnv.generatedId,
             toolName := (parseToolCallXml sampleUnknownToolEnv.selectionText).tool,
             args := (parseToolCallXml sampleUnknownToolEnv.selectionText).parameters,
             result := some (ToolResultJson.errorObj
               ("Tool '" ++ (parseToolCallXml sampleUnknownToolEnv.selectionText).tool
                 ++ "' is not implemented or recognized.")) } ∧
    (executeToolCall [] "m" true sampleUnknownToolEnv).toolCallMessages =
      [ { role := Role.assistant,
          content := MessageContent.toolOut
            (parseToolCallXml sampleUnknownToolEnv.selectionText).tool
            (ToolResultJson.errorObj
              ("Tool '" ++ (parseToolCallXml sampleUnknownToolEnv.selectionText).tool
                ++ "' is not implemented or recognized.")) },
        { role := Role.user,
          content := MessageContent.str
                       (synthesisInstruction
                         (parseToolCallXml sampleUnknownToolEnv.selectionText).tool) } ] ∧
    (executeToolCall [] "m" true sampleUnknownToolEnv).searchApiCalls = 0 ∧
    (executeToolCall [] "m" true sampleUnknownToolEnv).marketToolCalls = 0 :=
  C10_unknown_tool_full_pass [] "m" sampleUnknownToolEnv
    (by decide) (by decide) (by decide)
